import Mathlib

/-!
Verification of the signal-combination and recommendation core of the
Stock-Adviser repository.  The scoring functions of `services/scoring.py`,
the Graham-number step of `services/statistical_model.py` and the sentiment
scorer of `services/sentiment_service.py` are embedded shallowly: prices and
scores become rationals, Python `None` becomes `Option`, the string labels
returned by the recommendation mapper become the `Recommendation` enumeration,
and a raised exception (Python's `ZeroDivisionError`) becomes `none`.
-/

namespace StockAdviser

/-- The discrete labels returned by `map_to_recommendation` in
`services/scoring.py` ("Strong Buy" / "Buy" / "Hold" / "Sell"). -/
inductive Recommendation where
  | strongBuy
  | buy
  | hold
  | sell
deriving DecidableEq, Repr

/-- Trend scorer, from `services/scoring.py` (`get_price_trend_score`).
Python raises `ZeroDivisionError` when `last_close = 0`; that abort is
modelled as `none`. -/
def get_price_trend_score (predicted_close last_close : ℚ) : Option ℚ :=
  if last_close = 0 then none
  else
    let pct_change := ((predicted_close - last_close) / last_close) * 100
    if pct_change > 2 then some 90
    else if pct_change > 0.5 then some 70
    else if pct_change > -0.5 then some 50
    else if pct_change > -2 then some 30
    else some 10

/-- The trend band table of `get_price_trend_score` as a function of the
percentage change, used to state its specification. -/
def trendBandOf (pct_change : ℚ) : ℚ :=
  if pct_change > 2 then 90
  else if pct_change > 0.5 then 70
  else if pct_change > -0.5 then 50
  else if pct_change > -2 then 30
  else 10

/-- Valuation scorer, from `services/scoring.py` (`get_valuation_score`).
Python `None` inputs become `none`. -/
def get_valuation_score (current_price graham_number : Option ℚ) : ℚ :=
  match graham_number, current_price with
  | none, _ => 50
  | _, none => 50
  | some graham, some current =>
    if current < graham * 0.75 then 90
    else if current < graham then 75
    else if current < graham * 1.25 then 50
    else if current < graham * 1.5 then 30
    else 10

/-- The valuation band table of `get_valuation_score` as a function of the
ratio `current_price / graham_number`, used to state its specification. -/
def valBandOf (r : ℚ) : ℚ :=
  if r < 0.75 then 90
  else if r < 1 then 75
  else if r < 1.25 then 50
  else if r < 1.5 then 30
  else 10

/-- Score combiner, from `services/scoring.py` (`combine_scores`).  The
Python defaults `w_trend=0.3, w_sentiment=0.4, w_valuation=0.3` are passed
explicitly at every use below. -/
def combine_scores (trend_score sentiment_score valuation_score
    w_trend w_sentiment w_valuation : ℚ) : ℚ :=
  w_trend * trend_score + w_sentiment * sentiment_score +
    w_valuation * valuation_score

/-- Recommendation mapper, from `services/scoring.py`
(`map_to_recommendation`).  The optional `trend_score` / `sentiment_score`
arguments default to `None` in Python and become `Option ℚ` here. -/
def map_to_recommendation (final_score : ℚ)
    (trend_score sentiment_score : Option ℚ) : Recommendation :=
  if (sentiment_score.any (fun s => decide (85 ≤ s)) && decide (60 ≤ final_score)) ||
     (trend_score.any (fun t => decide (85 ≤ t)) && decide (60 ≤ final_score)) then
    .strongBuy
  else if 70 ≤ final_score then .buy
  else if 40 ≤ final_score then .hold
  else .sell

/-- The override condition of `map_to_recommendation`, as a proposition:
(sentiment present and at least 85, or trend present and at least 85) and
final score at least 60. -/
def overrideCond (final_score : ℚ) (trend_score sentiment_score : Option ℚ) : Prop :=
  ((∃ x, sentiment_score = some x ∧ 85 ≤ x) ∨ (∃ x, trend_score = some x ∧ 85 ≤ x)) ∧
    60 ≤ final_score

lemma override_bool_iff (f : ℚ) (t s : Option ℚ) :
    ((s.any (fun x => decide (85 ≤ x)) && decide (60 ≤ f)) ||
     (t.any (fun x => decide (85 ≤ x)) && decide (60 ≤ f))) = true ↔
      overrideCond f t s := by
  rcases s with _ | sv <;> rcases t with _ | tv <;>
    · simp [overrideCond, Option.any]
      try tauto

/-- Claim C1: `map_to_recommendation` returns "Strong Buy" iff
((sentiment present and at least 85) or (trend present and at least 85)) and the
final score is at least 60; otherwise it returns "Buy" when the final score is
at least 70, "Hold" when it is in [40, 70), and "Sell" when it is below 40. -/
theorem map_to_recommendation_spec (f : ℚ) (t s : Option ℚ) :
    (map_to_recommendation f t s = .strongBuy ↔ overrideCond f t s) ∧
    (¬ overrideCond f t s →
      map_to_recommendation f t s =
        if 70 ≤ f then .buy else if 40 ≤ f then .hold else .sell) := by
  unfold map_to_recommendation
  by_cases h : overrideCond f t s
  · rw [if_pos ((override_bool_iff f t s).mpr h)]
    simp [h]
  · rw [if_neg (by simpa using fun hb => h ((override_bool_iff f t s).mp hb))]
    refine ⟨?_, fun _ => rfl⟩
    constructor
    · intro he
      exfalso
      split_ifs at he
    · intro hc; exact absurd hc h

/-- Witness for C1 at concrete inputs: final 80 with trend 90 present fires the
override; final 65 with no strong signal falls to "Hold". -/
theorem map_to_recommendation_spec_witness :
    map_to_recommendation 80 (some 90) none = .strongBuy ∧
    map_to_recommendation 65 (some 50) (some 50) = .hold := by
  constructor
  · exact (map_to_recommendation_spec 80 (some 90) none).1.mpr
      ⟨Or.inr ⟨90, rfl, by norm_num⟩, by norm_num⟩
  · have h := (map_to_recommendation_spec 65 (some 50) (some 50)).2
      (by simp [overrideCond]; norm_num)
    rw [h]
    norm_num

lemma get_price_trend_score_eq_band (p l : ℚ) (h : l ≠ 0) :
    get_price_trend_score p l = some (trendBandOf (((p - l) / l) * 100)) := by
  simp only [get_price_trend_score, trendBandOf, if_neg h]
  split_ifs <;> rfl

lemma trendBandOf_mono {x y : ℚ} (hxy : x ≤ y) : trendBandOf x ≤ trendBandOf y := by
  unfold trendBandOf
  split_ifs <;> linarith

/-- Claim C2: for `last_close ≠ 0`, `get_price_trend_score` returns exactly one
of {10, 30, 50, 70, 90}, determined by
`pct_change = (predicted_close - last_close) / last_close * 100` through the
mutually exclusive bands (> 2 ↦ 90, (0.5, 2] ↦ 70, (-0.5, 0.5] ↦ 50,
(-2, -0.5] ↦ 30, ≤ -2 ↦ 10), and the score is monotonically non-decreasing in
`pct_change`. -/
theorem get_price_trend_score_spec (p l : ℚ) (h : l ≠ 0) :
    ∃ s, get_price_trend_score p l = some s ∧
      (s = 10 ∨ s = 30 ∨ s = 50 ∨ s = 70 ∨ s = 90) ∧
      (2 < ((p - l) / l) * 100 → s = 90) ∧
      (0.5 < ((p - l) / l) * 100 ∧ ((p - l) / l) * 100 ≤ 2 → s = 70) ∧
      (-0.5 < ((p - l) / l) * 100 ∧ ((p - l) / l) * 100 ≤ 0.5 → s = 50) ∧
      (-2 < ((p - l) / l) * 100 ∧ ((p - l) / l) * 100 ≤ -0.5 → s = 30) ∧
      (((p - l) / l) * 100 ≤ -2 → s = 10) ∧
      ∀ p2 l2 s2, l2 ≠ 0 → get_price_trend_score p2 l2 = some s2 →
        ((p - l) / l) * 100 ≤ ((p2 - l2) / l2) * 100 → s ≤ s2 := by
  refine ⟨trendBandOf (((p - l) / l) * 100), get_price_trend_score_eq_band p l h,
    ?_, ?_, ?_, ?_, ?_, ?_, ?_⟩
  · unfold trendBandOf; split_ifs <;> norm_num
  · intro hb; unfold trendBandOf; rw [if_pos hb]
  · intro hb; unfold trendBandOf; split_ifs <;> first | rfl | linarith [hb.1, hb.2]
  · intro hb; unfold trendBandOf; split_ifs <;> first | rfl | linarith [hb.1, hb.2]
  · intro hb; unfold trendBandOf; split_ifs <;> first | rfl | linarith [hb.1, hb.2]
  · intro hb; unfold trendBandOf; split_ifs <;> first | rfl | linarith
  · intro p2 l2 s2 h2 hs2 hle
    rw [get_price_trend_score_eq_band p2 l2 h2] at hs2
    exact (Option.some.inj hs2) ▸ trendBandOf_mono hle

/-- Witness for C2 at `predicted_close = 103, last_close = 100`:
`pct_change = 3 > 2`, so the score is 90. -/
theorem get_price_trend_score_spec_witness :
    get_price_trend_score 103 100 = some 90 := by
  obtain ⟨s, hs, _, h90, _⟩ := get_price_trend_score_spec 103 100 (by norm_num)
  rw [hs, h90 (by norm_num)]

/-- Counterexample to C9: a negative price does not abort the trend scorer.
At `predicted_close = 103, last_close = -100` the computation silently returns
the computed score 10 instead of failing with an input-validation error. -/
theorem get_price_trend_score_negative_no_error :
    get_price_trend_score 103 (-100) = some 10 ∧
    get_price_trend_score 103 (-100) ≠ none := by
  have h : get_price_trend_score 103 (-100) = some 10 := by
    norm_num [get_price_trend_score]
  exact ⟨h, by rw [h]; exact Option.some_ne_none 10⟩

/-- Claim C9 (amended): `last_close = 0` makes `get_price_trend_score` abort
with a division-by-zero error (modelled as `none`) for every
`predicted_close`; but any nonzero `last_close` — negative prices included —
is accepted silently and yields a computed score. -/
theorem get_price_trend_score_zero_aborts (p l : ℚ) :
    get_price_trend_score p 0 = none ∧
    (l ≠ 0 → (get_price_trend_score p l).isSome = true) := by
  constructor
  · simp [get_price_trend_score]
  · intro h
    rw [get_price_trend_score_eq_band p l h]
    rfl

/-- Witness for the amended C9 at `predicted_close = 103` with
`last_close = 0` (aborts) and `last_close = 7` (succeeds). -/
theorem get_price_trend_score_zero_aborts_witness :
    get_price_trend_score 103 0 = none ∧
    (get_price_trend_score 103 7).isSome = true :=
  ⟨(get_price_trend_score_zero_aborts 103 7).1,
   (get_price_trend_score_zero_aborts 103 7).2 (by norm_num)⟩

/-- Claim C3: with the fixed default weights (0.3, 0.4, 0.3), `combine_scores`
on inputs in [0, 100] is exactly the unclamped weighted sum, and that sum lies
in [0, 100]. -/
theorem combine_scores_range (t s v : ℚ)
    (ht0 : 0 ≤ t) (ht1 : t ≤ 100) (hs0 : 0 ≤ s) (hs1 : s ≤ 100)
    (hv0 : 0 ≤ v) (hv1 : v ≤ 100) :
    combine_scores t s v 0.3 0.4 0.3 = 0.3 * t + 0.4 * s + 0.3 * v ∧
    0 ≤ combine_scores t s v 0.3 0.4 0.3 ∧
    combine_scores t s v 0.3 0.4 0.3 ≤ 100 := by
  refine ⟨rfl, ?_, ?_⟩
  · unfold combine_scores
    linarith
  · unfold combine_scores
    linarith

/-- Witness for C3 at trend 100, sentiment 0, valuation 50. -/
theorem combine_scores_range_witness :
    combine_scores 100 0 50 0.3 0.4 0.3 = 0.3 * 100 + 0.4 * 0 + 0.3 * 50 ∧
    0 ≤ combine_scores 100 0 50 0.3 0.4 0.3 ∧
    combine_scores 100 0 50 0.3 0.4 0.3 ≤ 100 :=
  combine_scores_range 100 0 50 (by norm_num) (by norm_num) (by norm_num)
    (by norm_num) (by norm_num) (by norm_num)

/-- Claim C5: `get_valuation_score` returns the neutral 50 whenever the Graham
number is unknown, for every `current_price` (including absent), and likewise
whenever the current price is unknown; the function is total, so the absence is
never surfaced as an error. -/
theorem get_valuation_score_neutral :
    (∀ cp : Option ℚ, get_valuation_score cp none = 50) ∧
    (∀ g : Option ℚ, get_valuation_score none g = 50) := by
  constructor
  · intro cp; cases cp <;> rfl
  · intro g; cases g <;> rfl

lemma get_valuation_score_eq_band (c g : ℚ) (hg : 0 < g) :
    get_valuation_score (some c) (some g) = valBandOf (c / g) := by
  have h75 : c < g * 0.75 ↔ c / g < 0.75 := by
    rw [div_lt_iff₀ hg, mul_comm]
  have h100 : c < g ↔ c / g < 1 := by
    rw [div_lt_iff₀ hg, one_mul]
  have h125 : c < g * 1.25 ↔ c / g < 1.25 := by
    rw [div_lt_iff₀ hg, mul_comm]
  have h150 : c < g * 1.5 ↔ c / g < 1.5 := by
    rw [div_lt_iff₀ hg, mul_comm]
  simp only [get_valuation_score, valBandOf, h75, h100, h125, h150]

lemma valBandOf_anti {x y : ℚ} (hxy : x ≤ y) : valBandOf y ≤ valBandOf x := by
  unfold valBandOf
  split_ifs <;> linarith

/-- Claim C6: for positive `current_price` and `graham_number`,
`get_valuation_score` maps the ratio `current_price / graham_number` through
the bands (< 0.75 ↦ 90, [0.75, 1) ↦ 75, [1, 1.25) ↦ 50, [1.25, 1.5) ↦ 30,
≥ 1.5 ↦ 10), the score is monotonically non-increasing in the ratio, and
`current_price = 80` with `graham_number = 100` yields 75. -/
theorem get_valuation_score_bands (c g : ℚ) (_hc : 0 < c) (hg : 0 < g) :
    get_valuation_score (some c) (some g) = valBandOf (c / g) ∧
    (c / g < 0.75 → get_valuation_score (some c) (some g) = 90) ∧
    (0.75 ≤ c / g ∧ c / g < 1 → get_valuation_score (some c) (some g) = 75) ∧
    (1 ≤ c / g ∧ c / g < 1.25 → get_valuation_score (some c) (some g) = 50) ∧
    (1.25 ≤ c / g ∧ c / g < 1.5 → get_valuation_score (some c) (some g) = 30) ∧
    (1.5 ≤ c / g → get_valuation_score (some c) (some g) = 10) ∧
    (∀ c2 g2 : ℚ, 0 < c2 → 0 < g2 → c / g ≤ c2 / g2 →
      get_valuation_score (some c2) (some g2) ≤ get_valuation_score (some c) (some g)) ∧
    get_valuation_score (some 80) (some 100) = 75 := by
  have hb := get_valuation_score_eq_band c g hg
  refine ⟨hb, ?_, ?_, ?_, ?_, ?_, ?_, ?_⟩
  · intro h1; rw [hb]; unfold valBandOf
    rw [if_pos h1]
  · intro h1; rw [hb]; unfold valBandOf
    rw [if_neg (not_lt.mpr h1.1), if_pos h1.2]
  · intro h1; rw [hb]; unfold valBandOf
    rw [if_neg (not_lt.mpr (le_trans (by norm_num) h1.1)),
        if_neg (not_lt.mpr h1.1), if_pos h1.2]
  · intro h1; rw [hb]; unfold valBandOf
    rw [if_neg (not_lt.mpr (le_trans (by norm_num) h1.1)),
        if_neg (not_lt.mpr (le_trans (by norm_num) h1.1)),
        if_neg (not_lt.mpr h1.1), if_pos h1.2]
  · intro h1; rw [hb]; unfold valBandOf
    rw [if_neg (not_lt.mpr (le_trans (by norm_num) h1)),
        if_neg (not_lt.mpr (le_trans (by norm_num) h1)),
        if_neg (not_lt.mpr (le_trans (by norm_num) h1)),
        if_neg (not_lt.mpr h1)]
  · intro c2 g2 hc2 hg2 hle
    rw [hb, get_valuation_score_eq_band c2 g2 hg2]
    exact valBandOf_anti hle
  · norm_num [get_valuation_score]

/-- Witness for C6 at `current_price = 80, graham_number = 100`. -/
theorem get_valuation_score_bands_witness :
    get_valuation_score (some 80) (some 100) = 75 :=
  (get_valuation_score_bands 80 100 (by norm_num) (by norm_num)).2.2.2.2.2.2.2

/-- Counterexample to C7: with trend 90, sentiment 50, valuation 50 and the
default weights, `combine_scores` returns 62 (= 0.3·90 + 0.4·50 + 0.3·50), not
57, and the recommendation at that final score with trend 90 present is
"Strong Buy", not "Hold" — the override fires since trend ≥ 85 and the final
score 62 is at least 60. -/
theorem scenario3_counterexample :
    combine_scores 90 50 50 0.3 0.4 0.3 ≠ 57 ∧
    map_to_recommendation (combine_scores 90 50 50 0.3 0.4 0.3)
      (some 90) (some 50) ≠ .hold := by
  have h : combine_scores 90 50 50 0.3 0.4 0.3 = 62 := by
    norm_num [combine_scores]
  constructor
  · rw [h]; norm_num
  · rw [h]; decide

/-- Claim C7 (amended): in three-signal mode with trend 90, sentiment 50,
valuation 50, `combine_scores` returns 62 (= 0.3·90 + 0.4·50 + 0.3·50) and
`map_to_recommendation` on that final score with trend 90 and sentiment 50
returns "Strong Buy": the override fires because trend ≥ 85 and final ≥ 60. -/
theorem scenario3_amended :
    combine_scores 90 50 50 0.3 0.4 0.3 = 62 ∧
    map_to_recommendation 62 (some 90) (some 50) = .strongBuy := by
  constructor
  · norm_num [combine_scores]
  · decide

/-- Python `round(x, 2)` as used in `services/statistical_model.py`, modelled
as rounding to 2 decimal places over the reals. -/
noncomputable def round2 (x : ℝ) : ℝ := ((round (x * 100) : ℤ) : ℝ) / 100

/-- The Graham-number step of `get_advanced_metrics` in
`services/statistical_model.py`.  An `eps` / `bvps` missing from the ticker
info is `none`; the Python guard `if eps and bvps and eps > 0 and bvps > 0`
keeps the value only when both are present, truthy (nonzero) and strictly
positive, and otherwise leaves `graham_number = None`. -/
noncomputable def graham_number (eps bvps : Option ℚ) : Option ℝ :=
  match eps, bvps with
  | some e, some b =>
    if e ≠ 0 ∧ b ≠ 0 ∧ 0 < e ∧ 0 < b then
      some (round2 (Real.sqrt (22.5 * (e : ℝ) * (b : ℝ))))
    else none
  | _, _ => none

/-- Claim C4: the Graham number is unknown (`none`) whenever `eps ≤ 0` or
`book_value_per_share ≤ 0` or either is missing; when both are strictly
positive it equals `round(sqrt(22.5 · eps · bvps), 2)`. -/
theorem graham_number_spec :
    (∀ ob, graham_number none ob = none) ∧
    (∀ oe, graham_number oe none = none) ∧
    (∀ e b : ℚ, e ≤ 0 ∨ b ≤ 0 → graham_number (some e) (some b) = none) ∧
    (∀ e b : ℚ, 0 < e → 0 < b →
      graham_number (some e) (some b) =
        some (round2 (Real.sqrt (22.5 * (e : ℝ) * (b : ℝ))))) := by
  refine ⟨fun ob => rfl, fun oe => ?_, fun e b h1 => ?_, fun e b he hb => ?_⟩
  · cases oe <;> rfl
  · show (if e ≠ 0 ∧ b ≠ 0 ∧ 0 < e ∧ 0 < b then
        some (round2 (Real.sqrt (22.5 * (e : ℝ) * (b : ℝ)))) else none) = none
    rw [if_neg]
    rintro ⟨-, -, he, hb⟩
    rcases h1 with h1 | h1 <;> linarith
  · show (if e ≠ 0 ∧ b ≠ 0 ∧ 0 < e ∧ 0 < b then
        some (round2 (Real.sqrt (22.5 * (e : ℝ) * (b : ℝ)))) else none) =
      some (round2 (Real.sqrt (22.5 * (e : ℝ) * (b : ℝ))))
    rw [if_pos ⟨ne_of_gt he, ne_of_gt hb, he, hb⟩]

/-- Witness for C4: `eps = 2, bvps = 5` gives `sqrt(22.5 · 2 · 5) = sqrt 225
= 15`, unchanged by rounding; `eps = -1, bvps = 5` is unvaluable. -/
theorem graham_number_spec_witness :
    graham_number (some 2) (some 5) = some 15 ∧
    graham_number (some (-1)) (some 5) = none := by
  constructor
  · rw [graham_number_spec.2.2.2 2 5 (by norm_num) (by norm_num)]
    rw [show (22.5 : ℝ) * ((2 : ℚ) : ℝ) * ((5 : ℚ) : ℝ) = 15 ^ 2 by push_cast; norm_num,
      Real.sqrt_sq (by norm_num : (0 : ℝ) ≤ 15)]
    unfold round2
    norm_num
  · exact graham_number_spec.2.2.1 (-1) 5 (Or.inl (by norm_num))

/-- Modelled from the spec: the two-signal configuration of the score
combiner (`final = 0.6 × sentiment + 0.4 × trend`).  Only the three-signal
variant of `combine_scores` appears among the available sources; the spec
records this second profile of the same weighted-combination engine. -/
def combine_scores_two_signal (trend_score sentiment_score : ℚ) : ℚ :=
  0.6 * sentiment_score + 0.4 * trend_score

/-- Modelled from the spec: the recommendation mapper of the two-signal
configuration, whose override rule returns "Buy" — the strongest label this
configuration supports — where the three-signal mapper returns "Strong
Buy". -/
def map_to_recommendation_two_signal (final_score : ℚ)
    (trend_score sentiment_score : Option ℚ) : Recommendation :=
  if (sentiment_score.any (fun s => decide (85 ≤ s)) && decide (60 ≤ final_score)) ||
     (trend_score.any (fun t => decide (85 ≤ t)) && decide (60 ≤ final_score)) then
    .buy
  else if 70 ≤ final_score then .buy
  else if 40 ≤ final_score then .hold
  else .sell

/-- Claim C8: in the two-signal configuration the final score is
`0.6 × sentiment + 0.4 × trend` and the override rule returns "Buy" as its
strongest positive label. -/
theorem two_signal_mode_spec (t s f : ℚ) (ts ss : Option ℚ) :
    combine_scores_two_signal t s = 0.6 * s + 0.4 * t ∧
    (overrideCond f ts ss → map_to_recommendation_two_signal f ts ss = .buy) := by
  refine ⟨rfl, fun h => ?_⟩
  unfold map_to_recommendation_two_signal
  rw [if_pos ((override_bool_iff f ts ss).mpr h)]

/-- Witness for C8 at final 80 with sentiment 90 present. -/
theorem two_signal_mode_spec_witness :
    map_to_recommendation_two_signal 80 none (some 90) = .buy :=
  (two_signal_mode_spec 0 0 80 none (some 90)).2
    ⟨Or.inl ⟨90, rfl, by norm_num⟩, by norm_num⟩

/-- Python `str.strip()` as used by `analyze_sentiment_with_gemini`:
whitespace is removed from both ends, modelled on the character list. -/
def pyStrip (s : String) : String :=
  ⟨((s.data.dropWhile Char.isWhitespace).reverse.dropWhile Char.isWhitespace).reverse⟩

/-- The numeric value of a list of decimal digit characters. -/
def digitsToNat (cs : List Char) : ℕ :=
  cs.foldl (fun n c => 10 * n + (c.toNat - 48)) 0

/-- Python `int(...)` on an already-stripped string: an optional sign followed
by at least one decimal digit; any other shape raises `ValueError`, modelled
as `none`. -/
def pyInt? (s : String) : Option ℤ :=
  match s.data with
  | [] => none
  | c :: rest =>
    if c = '-' then
      if rest ≠ [] ∧ rest.all Char.isDigit then some (-(digitsToNat rest : ℤ)) else none
    else if c = '+' then
      if rest ≠ [] ∧ rest.all Char.isDigit then some ((digitsToNat rest : ℤ)) else none
    else if (c :: rest).all Char.isDigit then some ((digitsToNat (c :: rest) : ℤ)) else none

/-- Sentiment scorer from `services/sentiment_service.py`
(`analyze_sentiment_with_gemini`).  The Gemini call is modelled by passing the
model's response text as a second argument; `int(response.text.strip())` is
modelled by `pyInt? (pyStrip response_text)`, with a raised
`ValueError`/`TypeError` as `none`. -/
def analyze_sentiment_with_gemini (news_text response_text : String) : ℤ :=
  if news_text.data = [] ∨ (pyStrip news_text).data = [] then 50
  else
    match pyInt? (pyStrip response_text) with
    | some score => max 0 (min 100 score)
    | none => 50

lemma pyStrip_data_empty (s : String) (h : s.data = []) : (pyStrip s).data = [] := by
  simp [pyStrip, h]

lemma analyze_eq_of_blank (news resp : String) (h : (pyStrip news).data = []) :
    analyze_sentiment_with_gemini news resp = 50 := by
  unfold analyze_sentiment_with_gemini
  rw [if_pos (Or.inr h)]

lemma analyze_eq_of_parse (news resp : String) (h : (pyStrip news).data ≠ [])
    (n : ℤ) (hp : pyInt? (pyStrip resp) = some n) :
    analyze_sentiment_with_gemini news resp = max 0 (min 100 n) := by
  unfold analyze_sentiment_with_gemini
  rw [if_neg (by rintro (he | he); exacts [h (pyStrip_data_empty news he), h he]), hp]

lemma analyze_eq_of_no_parse (news resp : String) (h : (pyStrip news).data ≠ [])
    (hp : pyInt? (pyStrip resp) = none) :
    analyze_sentiment_with_gemini news resp = 50 := by
  unfold analyze_sentiment_with_gemini
  rw [if_neg (by rintro (he | he); exacts [h (pyStrip_data_empty news he), h he]), hp]

/-- Claim C10: `analyze_sentiment_with_gemini` always returns an integer in
[0, 100]: empty or whitespace-only news yields 50, a response that parses as
an integer is clamped into [0, 100] via `max 0 (min 100 score)`, and a
response that fails to parse as an integer yields the neutral fallback 50. -/
theorem analyze_sentiment_spec (news resp : String) :
    (0 ≤ analyze_sentiment_with_gemini news resp ∧
      analyze_sentiment_with_gemini news resp ≤ 100) ∧
    ((pyStrip news).data = [] → analyze_sentiment_with_gemini news resp = 50) ∧
    ((pyStrip news).data ≠ [] → ∀ n : ℤ, pyInt? (pyStrip resp) = some n →
      analyze_sentiment_with_gemini news resp = max 0 (min 100 n)) ∧
    ((pyStrip news).data ≠ [] → pyInt? (pyStrip resp) = none →
      analyze_sentiment_with_gemini news resp = 50) := by
  refine ⟨?_, analyze_eq_of_blank news resp,
    fun h n hn => analyze_eq_of_parse news resp h n hn,
    analyze_eq_of_no_parse news resp⟩
  by_cases h : (pyStrip news).data = []
  · rw [analyze_eq_of_blank news resp h]
    norm_num
  · rcases hp : pyInt? (pyStrip resp) with _ | n
    · rw [analyze_eq_of_no_parse news resp h hp]
      norm_num
    · rw [analyze_eq_of_parse news resp h n hp]
      exact ⟨le_max_left 0 _, max_le (by norm_num) (min_le_left 100 n)⟩

/-- Witness for C10: non-blank news with response "150" clamps to 100, blank
news yields 50, and a non-numeric response yields 50. -/
theorem analyze_sentiment_spec_witness :
    analyze_sentiment_with_gemini (r"stock news") (r"150") = 100 ∧
    analyze_sentiment_with_gemini (r"  ") (r"150") = 50 ∧
    analyze_sentiment_with_gemini (r"stock news") (r"great") = 50 := by
  refine ⟨?_, ?_, ?_⟩
  · have h := (analyze_sentiment_spec (r"stock news") (r"150")).2.2.1
      (by decide) 150 (by decide)
    rw [h]
    decide
  · exact (analyze_sentiment_spec (r"  ") (r"150")).2.1 (by decide)
  · exact (analyze_sentiment_spec (r"stock news") (r"great")).2.2.2
      (by decide) (by decide)

end StockAdviser
